import Mathlib

/-!
Shallow embedding of the patient-authorization workflow of
`src/aws/process.py` (class `ProcessPatients`) together with the input
parsing of `_parse_input_from_hospital` and the credential handling of
`login` / `fetch_env_vars`.

External collaborators (the selenium `WebDriver`, the portal's HTTP
responses, the PNR status resolver, the PDF checker and the `strptime`
date parser) are passed in as explicit parameters: the embedding records
the calls made to them in an event trace, so that properties about the
order and number of remote calls can be stated.  Fallible Python code
(exceptions) is embedded with `Except`.
-/

namespace HealthForce

/-- One row of the `Data` list in the JSON answer of the
`GridAutorizzazioni_Read` POST request. -/
structure PicRecord where
  NumeroAuth : String
deriving DecidableEq

/-- The exception kinds raised by the embedded code: `configurationError`
is the `ValueError` of `login` (missing credentials), `categoryNotFound`
the `ValueError` of `_check_request_accepted`, `indexError` the Python
`IndexError` of `Data[0]` on an empty list, and `remoteError` a failure
of a webdriver remote call. -/
inductive Err where
  | configurationError
  | categoryNotFound
  | indexError
  | remoteError
deriving DecidableEq

/-- The mutable `patient_data` dict of `process.py`, restricted to the
fields the workflow reads or writes: `age` is derived at processing time,
`pnr_status` and `pic` are the single overwritten authorization-state and
authorization-identifier slots. -/
structure PatientData where
  birthday : Int
  age : Nat
  pnr : List String
  esame : String
  prestazioni : String
  insurance_name : String
  codice_fiscale : String
  pnr_status : Option Nat
  pic : Option String
deriving DecidableEq

/-- One declarative rule of a phase: a boolean condition over the context
and the ordered action strings emitted when it matches.  A rule whose
expression cannot be evaluated counts as non-matching, which is absorbed
into the total function `cond`. -/
structure Rule (Ctx : Type) where
  cond : Ctx → Bool
  actions : List String

/-- The result dict returned by `RULES_ENGINE.execute`: `passed` is the
number of matched rules, `actions` their collected action strings. -/
structure RuleEvaluationResult where
  passed : Nat
  actions : List String
deriving DecidableEq

/-- Modelled from the spec: the `rules_engine` module (class
`RULES_ENGINE`) imported by `src/aws/process.py` is not under `src/`.
Following section 4.1 of the specification, `execute` evaluates every
rule of the phase against the context; for every rule whose condition is
true it increments `matchedCount` and appends the rule's action strings,
in rule order, both to the returned result and to the shared audit trail
`comments`; it never mutates the context. -/
def RULES_ENGINE.execute {Ctx : Type} (rules : List (Rule Ctx)) (ctx : Ctx)
    (comments : List String) : RuleEvaluationResult × List String :=
  let matched := rules.filter fun r => r.cond ctx
  let acts := (matched.map Rule.actions).flatten
  ({ passed := matched.length, actions := acts }, comments ++ acts)

/-- The rule phases of `config.yaml` used by the workflow
(`rules_context.deal_breakers.rules` and so on).  The `pdf_analysis`
phase is evaluated against a context holding only the list of PDF error
codes, matching the call in `process_pnr`. -/
structure RulesConfig where
  deal_breakers : List (Rule PatientData)
  patient_data : List (Rule PatientData)
  pdf_analysis : List (Rule (List String))
  webportal : List (Rule PatientData)

/-- The remote-portal collaborators of `process.py`:
`fetch_patient_data` is the GET on `CercaQuadro` (fallible remote call),
`get_pnr_status` the pure resolver `PNR_STATUS_MANAGER.get_pnr_status`,
`pic_database` the `Data` list of the `GridAutorizzazioni_Read` POST for
a given PNR, `categories` the texts of the `k-item` elements offered by
the portal's category scroller, and `check_pdf` the PDF validator
returning error codes. -/
structure Portal where
  fetch_patient_data : String → Except Err String
  get_pnr_status : String → Nat
  pic_database : String → List PicRecord
  categories : List String
  check_pdf : String → String → String → List String

/-- The observable events of one patient's processing, in chronological
order: the remote calls made on the patient's behalf, each rule-phase
execution with the actions it produced, and the final
`response.add_patient` hand-off with the joined comment string. -/
inductive Ev where
  | phaseRun (phase : String) (actions : List String)
  | fetchStatus (pnr : String)
  | acceptRequest (pnr : String)
  | fetchPic (pnr : String)
  | fetchPdf (pic : String)
  | addPatient (record : PatientData) (comments : String)
deriving DecidableEq

/-- Whether an event is a remote call to the portal on behalf of the
patient (rule-phase runs and the final record hand-off are local). -/
def isRemoteCall : Ev → Bool
  | Ev.fetchStatus _ => true
  | Ev.acceptRequest _ => true
  | Ev.fetchPic _ => true
  | Ev.fetchPdf _ => true
  | _ => false

/-- The action strings of the rule phases actually executed, in trace
order. -/
def phaseActions : List Ev → List String
  | [] => []
  | Ev.phaseRun _ acts :: t => acts ++ phaseActions t
  | _ :: t => phaseActions t

/-- The comment string of the final `response.add_patient` event of a
patient trace, when the trace ends in one. -/
def finalComment (evs : List Ev) : Option String :=
  match evs.getLast? with
  | some (Ev.addPatient _ c) => some c
  | _ => none

/-- The finalized record of the final `response.add_patient` event of a
patient trace, when the trace ends in one. -/
def finalRecord (evs : List Ev) : Option PatientData :=
  match evs.getLast? with
  | some (Ev.addPatient r _) => some r
  | _ => none

/-- The remote calls, in order, of a successful `process_pnr` result. -/
def pnrRemote (x : Except Err (PatientData × List String × List Ev)) :
    Option (List Ev) :=
  match x with
  | Except.ok (_, _, evs) => some (evs.filter isRemoteCall)
  | Except.error _ => none

/-- The authorization identifier slot of a successful `process_pnr`
result. -/
def pnrPic (x : Except Err (PatientData × List String × List Ev)) :
    Option (Option String) :=
  match x with
  | Except.ok (pd, _, _) => some pd.pic
  | Except.error _ => none

/-- The candidate category codes of `_check_request_accepted`, tried in
order: the patient's requested `prestazioni` code, then the two fixed
fallbacks. -/
def codes_to_try (code_prestazioni : String) : List String :=
  [code_prestazioni, "Visite specialistiche", "Altre prestazioni"]

/-- `ProcessPatients._check_request_accepted`, reduced to its decision
content: scan the candidate codes in order, click the first `k-item`
whose text equals a candidate (returned as the selected code); if no
candidate matches any offered item, raise the `ValueError`
(`categoryNotFound`).  The `patient_pnr` and `patient_esame` arguments
are typed into the portal forms and do not influence the selection. -/
def _check_request_accepted (categories : List String)
    (patient_pnr patient_esame code_prestazioni : String) :
    Except Err String :=
  match (codes_to_try code_prestazioni).find? (fun c => categories.contains c) with
  | some c => Except.ok c
  | none => Except.error Err.categoryNotFound

/-- `ProcessPatients._fetch_pic_from_database`: the code takes
`result.json()["Data"][0]["NumeroAuth"]` unconditionally, so an empty
`Data` list raises an `IndexError`; otherwise the first record's
`NumeroAuth` is returned. -/
def _fetch_pic_from_database (data : List PicRecord) : Except Err String :=
  match data with
  | [] => Except.error Err.indexError
  | r :: _ => Except.ok r.NumeroAuth

/-- Boolean success test for an `Except` result. -/
def exceptOk {ε α : Type} (e : Except ε α) : Bool :=
  match e with
  | Except.ok _ => true
  | Except.error _ => false

/-- `ProcessPatients.process_pnr`: fetch the reference's portal page and
resolve its status into `patient_data["pnr_status"]`; if the status is
`1` or `2` then (for status `1` only) run the accept-request procedure,
then fetch the authorization identifier into `patient_data["pic"]`,
fetch the Telerik PDF, validate it, and run the `patient_data` and
`pdf_analysis` rule phases; otherwise set `pic` to `None`.  In every
branch the `webportal` phase runs last.  The returned trace lists the
remote calls and phase runs in chronological order. -/
def process_pnr (portal : Portal) (cfg : RulesConfig)
    (patient_data : PatientData) (pnr : String) (comments : List String) :
    Except Err (PatientData × List String × List Ev) :=
  match portal.fetch_patient_data pnr with
  | Except.error e => Except.error e
  | Except.ok html =>
    let st := portal.get_pnr_status html
    let pd := { patient_data with pnr_status := some st }
    if st == 1 || st == 2 then
      let acceptRes : Except Err (List Ev) :=
        if st == 1 then
          match _check_request_accepted portal.categories pnr pd.esame pd.prestazioni with
          | Except.error e => Except.error e
          | Except.ok _ => Except.ok [Ev.acceptRequest pnr]
        else Except.ok []
      match acceptRes with
      | Except.error e => Except.error e
      | Except.ok evAccept =>
        match _fetch_pic_from_database (portal.pic_database pnr) with
        | Except.error e => Except.error e
        | Except.ok pic =>
          let pd := { pd with pic := some pic }
          let error_codes := portal.check_pdf pic pd.insurance_name pd.codice_fiscale
          let r1 := RULES_ENGINE.execute cfg.patient_data pd comments
          let r2 := RULES_ENGINE.execute cfg.pdf_analysis error_codes r1.2
          let r3 := RULES_ENGINE.execute cfg.webportal pd r2.2
          Except.ok (pd, r3.2,
            Ev.fetchStatus pnr :: evAccept ++
            [Ev.fetchPic pnr, Ev.fetchPdf pic,
             Ev.phaseRun "patient_data" r1.1.actions,
             Ev.phaseRun "pdf_analysis" r2.1.actions,
             Ev.phaseRun "webportal" r3.1.actions])
    else
      let pd := { pd with pic := none }
      let r := RULES_ENGINE.execute cfg.webportal pd comments
      Except.ok (pd, r.2, [Ev.fetchStatus pnr, Ev.phaseRun "webportal" r.1.actions])

/-- The `for pnr in patient_data["pnr"]` loop of `process_patient`:
thread the mutable record and the shared comment list through
`process_pnr` for each reference in list order; the first exception
propagates. -/
def processPnrList (portal : Portal) (cfg : RulesConfig) :
    PatientData → List String → List String →
    Except Err (PatientData × List String × List Ev)
  | pd, [], comments => Except.ok (pd, comments, [])
  | pd, pnr :: rest, comments =>
    match process_pnr portal cfg pd pnr comments with
    | Except.error e => Except.error e
    | Except.ok (pd1, c1, ev1) =>
      match processPnrList portal cfg pd1 rest c1 with
      | Except.error e => Except.error e
      | Except.ok (pd2, c2, ev2) => Except.ok (pd2, c2, ev1 ++ ev2)

/-- `ProcessPatients.process_patient`: derive the age, run the
`deal_breakers` phase on the record with a fresh comment list; if any
rule matched, null the `pic` and hand the record over with the phase's
actions joined by `" / "`, touching no reference; otherwise loop over
the references and hand the final record over with the accumulated
comments joined by `" / "`.  The `years` parameter is
`relativedelta(datetime.now(), birthday).years`. -/
def process_patient (years : Int → Nat) (portal : Portal)
    (cfg : RulesConfig) (patient_data : PatientData) :
    Except Err (List Ev) :=
  let pd := { patient_data with age := years patient_data.birthday }
  let r0 := RULES_ENGINE.execute cfg.deal_breakers pd []
  if r0.1.passed > 0 then
    Except.ok [Ev.phaseRun "deal_breakers" r0.1.actions,
      Ev.addPatient { pd with pic := none }
        (String.intercalate " / " r0.1.actions)]
  else
    match processPnrList portal cfg pd pd.pnr r0.2 with
    | Except.error e => Except.error e
    | Except.ok (pdF, commentsF, evs) =>
      Except.ok (Ev.phaseRun "deal_breakers" r0.1.actions ::
        (evs ++ [Ev.addPatient pdF (String.intercalate " / " commentsF)]))

/-- The batch-level events of `process_patients`: the two login POSTs,
one entry per successfully processed patient carrying its trace, the
`webdriver.quit()` call and the final `send_mail_to_hospital`. -/
inductive BatchEv where
  | loginPost
  | patientEvs (evs : List Ev)
  | quit
  | sendMail
deriving DecidableEq

/-- `ProcessPatients.login`: raise the `ValueError` when the username or
the password equals the empty string (an absent environment variable
arrives as `None`, embedded as `none`, and is not caught by this check),
then POST the login form twice. -/
def login (username password : Option String) : Except Err (List BatchEv) :=
  if username == some "" || password == some "" then
    Except.error Err.configurationError
  else
    Except.ok [BatchEv.loginPost, BatchEv.loginPost]

/-- The `for patient in patients` loop of `process_patients`: there is
no `try` around `process_patient`, so the first exception stops the loop
and propagates; patients already handed to the response keep their
entries, later patients produce nothing. -/
def runPatients (years : Int → Nat) (portal : Portal) (cfg : RulesConfig) :
    List PatientData → List BatchEv × Option Err
  | [] => ([], none)
  | p :: rest =>
    match process_patient years portal cfg p with
    | Except.ok evs =>
      (BatchEv.patientEvs evs :: (runPatients years portal cfg rest).1,
       (runPatients years portal cfg rest).2)
    | Except.error e => ([], some e)

/-- `ProcessPatients.process_patients` on an already parsed patient
list: log in, process the patients in order, and only when no exception
was raised call `webdriver.quit()` and send the response mail (neither
call sits in a `finally`, so an exception skips both). -/
def process_patients (username password : Option String)
    (years : Int → Nat) (portal : Portal) (cfg : RulesConfig)
    (patients : List PatientData) : List BatchEv × Option Err :=
  match login username password with
  | Except.error e => ([], some e)
  | Except.ok lEvs =>
    match (runPatients years portal cfg patients).2 with
    | some e => (lEvs ++ (runPatients years portal cfg patients).1, some e)
    | none =>
      (lEvs ++ (runPatients years portal cfg patients).1 ++
        [BatchEv.quit, BatchEv.sendMail], none)

/-- The number of `webdriver.quit()` calls in a batch trace. -/
def countQuit : List BatchEv → Nat
  | [] => 0
  | BatchEv.quit :: t => countQuit t + 1
  | _ :: t => countQuit t

/-- One entry of `config_yaml["mapping"]["csv"]`: source column name,
target field name, type tag and (for dates) the format string. -/
structure ColItem where
  coltype : String
  var_name : String
  colname : String
  date_format : String
deriving DecidableEq

/-- A parsed field value of `_parse_input_from_hospital`.  The `arr`
constructor is what the `ast.literal_eval` branch would produce if the
`ast` module were imported; as embedded it is never reached. -/
inductive Value where
  | str (s : String)
  | arr (l : List String)
  | bool (b : Bool)
  | date (d : Int)
deriving DecidableEq

/-- The exceptions of `_parse_input_from_hospital`: `nameError` is the
Python `NameError` raised at the `ast.literal_eval` call because `ast`
is never imported in `src/aws/process.py`; `valueErrorUnknownType` the
explicit `ValueError` of the final else branch; `valueErrorDate` the
`ValueError` of a failing `datetime.strptime`. -/
inductive ParseError where
  | nameError
  | valueErrorUnknownType
  | valueErrorDate
deriving DecidableEq

/-- One mapping entry applied to one CSV row (a total lookup from column
name to cell text).  The branches follow the `coltype` dispatch of
`_parse_input_from_hospital`; the `"array"` branch evaluates the name
`ast`, which is unbound in the module, so it raises a `NameError` before
touching the cell.  `strptime` is the external `datetime.strptime`,
returning `none` where Python raises `ValueError`. -/
def parseItem (strptime : String → String → Option Int)
    (row : String → String) (item : ColItem) :
    Except ParseError (String × Value) :=
  if item.coltype == "string" then
    Except.ok (item.var_name, Value.str (row item.colname))
  else if item.coltype == "array" then
    Except.error ParseError.nameError
  else if item.coltype == "bool" then
    Except.ok (item.var_name, Value.bool ((row item.colname).toLower == "true"))
  else if item.coltype == "date" then
    match strptime (row item.colname) item.date_format with
    | some d => Except.ok (item.var_name, Value.date d)
    | none => Except.error ParseError.valueErrorDate
  else
    Except.error ParseError.valueErrorUnknownType

/-- The inner `for item in self.config_yaml["mapping"]["csv"]` loop of
`_parse_input_from_hospital`, building one `item_dict`; the first
exception propagates. -/
def parseRow (strptime : String → String → Option Int)
    (row : String → String) : List ColItem →
    Except ParseError (List (String × Value))
  | [] => Except.ok []
  | item :: rest =>
    match parseItem strptime row item with
    | Except.error e => Except.error e
    | Except.ok kv =>
      match parseRow strptime row rest with
      | Except.error e => Except.error e
      | Except.ok kvs => Except.ok (kv :: kvs)

/-- `ProcessPatients._parse_input_from_hospital` over the data rows of
the CSV file: one parsed dict per row, first exception propagates and no
patient list is returned. -/
def _parse_input_from_hospital (strptime : String → String → Option Int)
    (mapping : List ColItem) : List (String → String) →
    Except ParseError (List (List (String × Value)))
  | [] => Except.ok []
  | row :: rest =>
    match parseRow strptime row mapping with
    | Except.error e => Except.error e
    | Except.ok d =>
      match _parse_input_from_hospital strptime mapping rest with
      | Except.error e => Except.error e
      | Except.ok ds => Except.ok (d :: ds)

/-! Concrete fixtures shared by the witnesses and counterexamples. -/

/-- A constant age derivation used in concrete runs. -/
def yearsW : Int → Nat := fun _ => 0

/-- A concrete patient record with the given fiscal code and reference
list. -/
def mkPatient (code : String) (pnrs : List String) : PatientData :=
  { birthday := 0, age := 0, pnr := pnrs, esame := "esame",
    prestazioni := "cat", insurance_name := "ins", codice_fiscale := code,
    pnr_status := none, pic := none }

/-- A rule configuration with all four phases empty. -/
def cfgEmpty : RulesConfig :=
  { deal_breakers := [], patient_data := [], pdf_analysis := [],
    webportal := [] }

/-- A rule configuration whose `deal_breakers` phase holds the single
rule `age < 18 -> "minor"`. -/
def cfgMinor : RulesConfig :=
  { cfgEmpty with
    deal_breakers := [{ cond := fun pd => decide (pd.age < 18),
                        actions := ["minor"] }] }

/-- A portal on which every remote call succeeds and every reference
resolves to the not-actionable status `0`. -/
def portalQuiet : Portal :=
  { fetch_patient_data := fun s => Except.ok s,
    get_pnr_status := fun _ => 0,
    pic_database := fun _ => [],
    categories := [],
    check_pdf := fun _ _ _ => [] }

/-- A portal on which fetching the reference `"B"` fails with a remote
communication error and every other reference resolves to status `0`. -/
def portalFailB : Portal :=
  { portalQuiet with
    fetch_patient_data := fun s =>
      if s == "B" then Except.error Err.remoteError else Except.ok s }

/-- A portal on which every reference resolves to the
awaiting-manual-approval status `1` while the category scroller offers
no categories at all. -/
def portalNoCats : Portal :=
  { portalQuiet with get_pnr_status := fun _ => 1 }

/-- A portal on which reference `"A"` resolves to already-approved
(status `2`) with identifier `"PIC-A"`, reference `"B"` to
awaiting-manual-approval (status `1`) with identifier `"PIC-B"`, and the
category scroller offers only the last fallback category. -/
def portalAuth : Portal :=
  { fetch_patient_data := fun s => Except.ok s,
    get_pnr_status := fun h => if h == "A" then 2 else if h == "B" then 1 else 0,
    pic_database := fun s =>
      if s == "A" then [{ NumeroAuth := "PIC-A" }] else [{ NumeroAuth := "PIC-B" }],
    categories := ["Altre prestazioni"],
    check_pdf := fun _ _ _ => [] }

/-- A mapping entry with an unrecognized type tag. -/
def colBogus : ColItem :=
  { coltype := "bogus", var_name := "v", colname := "c", date_format := "" }

/-- A mapping entry of type tag `"array"`. -/
def colArray : ColItem :=
  { coltype := "array", var_name := "w", colname := "d", date_format := "" }

/-- A mapping entry of type tag `"string"`. -/
def colString : ColItem :=
  { coltype := "string", var_name := "n", colname := "c", date_format := "" }

/-! Helper lemmas about the embedding, shared by the claim theorems. -/

/-- `execute` only ever appends its matched actions to the audit trail. -/
theorem execute_comments {Ctx : Type} (rules : List (Rule Ctx)) (ctx : Ctx)
    (comments : List String) :
    (RULES_ENGINE.execute rules ctx comments).2 =
      comments ++ (RULES_ENGINE.execute rules ctx comments).1.actions := rfl

theorem phaseActions_append (l1 l2 : List Ev) :
    phaseActions (l1 ++ l2) = phaseActions l1 ++ phaseActions l2 := by
  induction l1 with
  | nil => simp [phaseActions]
  | cons x t ih => cases x <;> simp [phaseActions, ih]

theorem finalComment_snoc (x : Ev) (l : List Ev) (r : PatientData) (c : String) :
    finalComment (x :: (l ++ [Ev.addPatient r c])) = some c := by
  unfold finalComment
  rw [show x :: (l ++ [Ev.addPatient r c]) = (x :: l) ++ [Ev.addPatient r c] from rfl,
    List.getLast?_concat]

theorem finalRecord_snoc (x : Ev) (l : List Ev) (r : PatientData) (c : String) :
    finalRecord (x :: (l ++ [Ev.addPatient r c])) = some r := by
  unfold finalRecord
  rw [show x :: (l ++ [Ev.addPatient r c]) = (x :: l) ++ [Ev.addPatient r c] from rfl,
    List.getLast?_concat]

theorem countQuit_append (a b : List BatchEv) :
    countQuit (a ++ b) = countQuit a + countQuit b := by
  induction a with
  | nil => simp [countQuit]
  | cons x t ih => cases x <;> simp [countQuit, ih] <;> omega

theorem countQuit_runPatients (years : Int → Nat) (portal : Portal)
    (cfg : RulesConfig) (ps : List PatientData) :
    countQuit (runPatients years portal cfg ps).1 = 0 := by
  induction ps with
  | nil => rfl
  | cons p t ih =>
    unfold runPatients
    split
    · simpa [countQuit] using ih
    · rfl

/-- Defining equation of `processPnrList` on the empty reference list. -/
theorem processPnrList_nil (portal : Portal) (cfg : RulesConfig)
    (pd : PatientData) (comments : List String) :
    processPnrList portal cfg pd [] comments = Except.ok (pd, comments, []) :=
  rfl

/-- Defining equation of `processPnrList` on a non-empty reference
list. -/
theorem processPnrList_cons (portal : Portal) (cfg : RulesConfig)
    (pd : PatientData) (pnr : String) (rest : List String)
    (comments : List String) :
    processPnrList portal cfg pd (pnr :: rest) comments =
      match process_pnr portal cfg pd pnr comments with
      | Except.error e => Except.error e
      | Except.ok (pd1, c1, ev1) =>
        match processPnrList portal cfg pd1 rest c1 with
        | Except.error e => Except.error e
        | Except.ok (pd2, c2, ev2) => Except.ok (pd2, c2, ev1 ++ ev2) :=
  rfl

/-- One `process_pnr` call only appends to the audit trail, and what it
appends is exactly the actions of the rule phases it ran. -/
theorem process_pnr_comments (portal : Portal) (cfg : RulesConfig)
    (pd : PatientData) (pnr : String) (comments : List String)
    (pd' : PatientData) (c' : List String) (evs : List Ev)
    (h : process_pnr portal cfg pd pnr comments = Except.ok (pd', c', evs)) :
    c' = comments ++ phaseActions evs := by
  simp only [process_pnr] at h
  split at h
  · cases h
  · split at h
    · split at h
      · cases h
      · rename_i evAccept hAcc
        split at h
        · cases h
        · rename_i pic hPic
          have hAcc' : phaseActions evAccept = [] := by
            split at hAcc
            · split at hAcc
              · cases hAcc
              · simp only [Except.ok.injEq] at hAcc
                rw [← hAcc]
                rfl
            · simp only [Except.ok.injEq] at hAcc
              rw [← hAcc]
              rfl
          simp only [Except.ok.injEq, Prod.mk.injEq] at h
          obtain ⟨h1, h2, h3⟩ := h
          subst h2
          subst h3
          simp [phaseActions, phaseActions_append, hAcc',
            RULES_ENGINE.execute, List.append_assoc]
    · simp only [Except.ok.injEq, Prod.mk.injEq] at h
      obtain ⟨h1, h2, h3⟩ := h
      subst h2
      subst h3
      simp [phaseActions, RULES_ENGINE.execute]

/-- The reference loop only appends to the audit trail, appending
exactly the actions of the rule phases it ran. -/
theorem processPnrList_comments (portal : Portal) (cfg : RulesConfig) :
    ∀ (pnrs : List String) (pd : PatientData) (comments : List String)
      (pd' : PatientData) (c' : List String) (evs : List Ev),
      processPnrList portal cfg pd pnrs comments = Except.ok (pd', c', evs) →
      c' = comments ++ phaseActions evs := by
  intro pnrs
  induction pnrs with
  | nil =>
    intro pd comments pd' c' evs h
    rw [processPnrList_nil] at h
    simp only [Except.ok.injEq, Prod.mk.injEq] at h
    obtain ⟨h1, h2, h3⟩ := h
    subst h2
    subst h3
    simp [phaseActions]
  | cons pnr rest ih =>
    intro pd comments pd' c' evs h
    rw [processPnrList_cons] at h
    split at h
    · cases h
    · rename_i pd1 c1 ev1 h1
      split at h
      · cases h
      · rename_i pd2 c2 ev2 h2
        simp only [Except.ok.injEq, Prod.mk.injEq] at h
        obtain ⟨g1, g2, g3⟩ := h
        subst g2
        subst g3
        have e1 := process_pnr_comments portal cfg pd pnr comments pd1 c1 ev1 h1
        have e2 := ih pd1 c1 pd2 c2 ev2 h2
        subst e1
        subst e2
        simp [phaseActions_append, List.append_assoc]

/-- Defining equation of `runPatients` on a non-empty batch. -/
theorem runPatients_cons (years : Int → Nat) (portal : Portal)
    (cfg : RulesConfig) (p : PatientData) (rest : List PatientData) :
    runPatients years portal cfg (p :: rest) =
      match process_patient years portal cfg p with
      | Except.ok evs =>
        (BatchEv.patientEvs evs :: (runPatients years portal cfg rest).1,
         (runPatients years portal cfg rest).2)
      | Except.error e => ([], some e) :=
  rfl

/-- A successful login always comes back with the two login POSTs. -/
theorem login_ok_shape (u pw : Option String) (lEvs : List BatchEv)
    (hl : login u pw = Except.ok lEvs) :
    lEvs = [BatchEv.loginPost, BatchEv.loginPost] := by
  unfold login at hl
  split at hl
  · cases hl
  · simp only [Except.ok.injEq] at hl
    exact hl.symm

/-- When a prefix of the batch processes cleanly and the next patient
raises, the loop stops at that patient: the trace is exactly the
prefix's trace and the exception propagates; the remaining patients are
never processed. -/
theorem runPatients_append_fail (years : Int → Nat) (portal : Portal)
    (cfg : RulesConfig) (p : PatientData) (ps2 : List PatientData) (e : Err)
    (hfail : process_patient years portal cfg p = Except.error e) :
    ∀ ps1 : List PatientData, (runPatients years portal cfg ps1).2 = none →
      runPatients years portal cfg (ps1 ++ p :: ps2) =
        ((runPatients years portal cfg ps1).1, some e) := by
  intro ps1
  induction ps1 with
  | nil =>
    intro _
    rw [List.nil_append, runPatients_cons, hfail]
    rfl
  | cons q t ih =>
    intro hok
    rw [runPatients_cons] at hok
    rw [List.cons_append, runPatients_cons]
    cases hproc : process_patient years portal cfg q with
    | error e' =>
      rw [hproc] at hok
      simp at hok
    | ok evs =>
      rw [hproc] at hok
      simp only [] at hok
      rw [ih hok, runPatients_cons, hproc]

/-- A reference resolving to already-approved (status `2`) succeeds with
the status and the looked-up identifier overwriting the record's
slots. -/
theorem process_pnr_ok_status2 (portal : Portal) (cfg : RulesConfig)
    (pd : PatientData) (pnr : String) (comments : List String)
    (html pic : String)
    (hf : portal.fetch_patient_data pnr = Except.ok html)
    (h2 : portal.get_pnr_status html = 2)
    (hpic : _fetch_pic_from_database (portal.pic_database pnr) =
      Except.ok pic) :
    ∃ c' evs, process_pnr portal cfg pd pnr comments =
      Except.ok ({ pd with pnr_status := some 2, pic := some pic },
        c', evs) := by
  cases hres : process_pnr portal cfg pd pnr comments with
  | error e => simp [process_pnr, hf, h2, hpic] at hres
  | ok trip =>
    obtain ⟨pd', c', evs⟩ := trip
    refine ⟨c', evs, ?_⟩
    have h' := hres
    simp [process_pnr, hf, h2, hpic] at h'
    obtain ⟨ha, -, -⟩ := h'
    rw [ha]

/-- A reference resolving to awaiting-manual-approval (status `1`) with
a succeeding accept-request procedure succeeds with the status and the
looked-up identifier overwriting the record's slots. -/
theorem process_pnr_ok_status1 (portal : Portal) (cfg : RulesConfig)
    (pd : PatientData) (pnr : String) (comments : List String)
    (html sel pic : String)
    (hf : portal.fetch_patient_data pnr = Except.ok html)
    (h1 : portal.get_pnr_status html = 1)
    (hsel : _check_request_accepted portal.categories pnr pd.esame
      pd.prestazioni = Except.ok sel)
    (hpic : _fetch_pic_from_database (portal.pic_database pnr) =
      Except.ok pic) :
    ∃ c' evs, process_pnr portal cfg pd pnr comments =
      Except.ok ({ pd with pnr_status := some 1, pic := some pic },
        c', evs) := by
  cases hres : process_pnr portal cfg pd pnr comments with
  | error e => simp [process_pnr, hf, h1, hsel, hpic] at hres
  | ok trip =>
    obtain ⟨pd', c', evs⟩ := trip
    refine ⟨c', evs, ?_⟩
    have h' := hres
    simp [process_pnr, hf, h1, hsel, hpic] at h'
    obtain ⟨ha, -, -⟩ := h'
    rw [ha]

/-! The claim theorems. -/

/-- Claim C9: `_fetch_pic_from_database` unconditionally takes the first
element of the `Data` list; it returns an identifier exactly when at
least one record matched, in which case the identifier is the first
record's `NumeroAuth`, and on an empty result list the access is out of
range and the lookup raises an `IndexError` instead of yielding a null
identifier. -/
theorem c9_pic_lookup_requires_nonempty_data :
    (∀ data : List PicRecord,
      exceptOk (_fetch_pic_from_database data) = !data.isEmpty) ∧
    (∀ (r : PicRecord) (rest : List PicRecord),
      _fetch_pic_from_database (r :: rest) = Except.ok r.NumeroAuth) ∧
    _fetch_pic_from_database ([] : List PicRecord) =
      Except.error Err.indexError :=
  ⟨fun data => by cases data <;> rfl, fun _ _ => rfl, rfl⟩

/-- Claim C8 (code bug): `login` raises the configuration `ValueError`
for empty-string credentials, aborting before any patient, but an absent
environment variable arrives as `None` (`none`), slips past the
`== ""` check, and the run proceeds to POST the login form — contrary to
the claim that missing credentials are fatal. -/
theorem c8_login_misses_absent_credentials :
    login (some "") (some "pw") = Except.error Err.configurationError ∧
    login (some "user") (some "") = Except.error Err.configurationError ∧
    (∀ patients : List PatientData,
      process_patients (some "") (some "pw") yearsW portalQuiet cfgEmpty
        patients = ([], some Err.configurationError)) ∧
    login none (some "pw") =
      Except.ok [BatchEv.loginPost, BatchEv.loginPost] ∧
    process_patients none (some "pw") yearsW portalQuiet cfgEmpty [] =
      ([BatchEv.loginPost, BatchEv.loginPost, BatchEv.quit,
        BatchEv.sendMail], none) :=
  ⟨rfl, rfl, fun _ => rfl, rfl, rfl⟩

/-- Claim C2 counterexample: three patients where fetching the second
patient's reference raises a remote communication error.  The claimed
behavior — a failure entry for patient 2 and a finalized record for
patient 3 — does not occur: the batch output holds only patient 1's
record, the exception propagates, and patient 3 is never processed (nor
is any failure entry recorded; the whole run ends in the error). -/
theorem c2_counterexample :
    process_patients (some "user") (some "pw") yearsW portalFailB cfgEmpty
      [mkPatient "P1" ["A"], mkPatient "P2" ["B"], mkPatient "P3" ["C"]] =
    ([BatchEv.loginPost, BatchEv.loginPost,
      BatchEv.patientEvs [Ev.phaseRun "deal_breakers" [],
        Ev.fetchStatus "A", Ev.phaseRun "webportal" [],
        Ev.addPatient
          { mkPatient "P1" ["A"] with pnr_status := some 0, pic := none }
          ""]],
     some Err.remoteError) :=
  rfl

/-- Claim C3 counterexample: on a batch whose only patient fails with a
remote communication error, `webdriver.quit()` is never called (the call
does not sit in a `finally` block), contradicting "closed exactly once
on every exit path". -/
theorem c3_counterexample :
    countQuit (process_patients (some "user") (some "pw") yearsW portalFailB
      cfgEmpty [mkPatient "P2" ["B"]]).1 = 0 ∧
    (process_patients (some "user") (some "pw") yearsW portalFailB
      cfgEmpty [mkPatient "P2" ["B"]]).2 = some Err.remoteError :=
  ⟨rfl, rfl⟩

/-- Claim C5 counterexample: a portal offering no categories makes
`_check_request_accepted` raise `CategoryNotFoundError` for the first
patient — and that error does not abort only the current patient: it
propagates out of `process_patients`, so the second patient is never
processed and the batch dies. -/
theorem c5_counterexample :
    process_patients (some "user") (some "pw") yearsW portalNoCats cfgEmpty
      [mkPatient "P1" ["A"], mkPatient "P2" ["C"]] =
    ([BatchEv.loginPost, BatchEv.loginPost], some Err.categoryNotFound) :=
  rfl

/-- Claim C10 counterexample: a column mapping that contains an `"array"`
entry but whose first entry has an unrecognized type tag raises the
unknown-type `ValueError` on the first row, not the claimed `NameError`;
the `NameError` does occur once every entry before the array entry
parses. -/
theorem c10_counterexample :
    _parse_input_from_hospital (fun _ _ => none) [colBogus, colArray]
      [fun _ => "x"] = Except.error ParseError.valueErrorUnknownType ∧
    _parse_input_from_hospital (fun _ _ => none) [colArray]
      [fun _ => "x"] = Except.error ParseError.nameError :=
  ⟨rfl, rfl⟩

/-- Claim C1: when the `deal_breakers` phase matches at least one rule,
`process_patient` succeeds with a trace containing no remote call at
all, the finalized record has a null authorization identifier, and the
final comment is the phase's accumulated action strings joined by
`" / "`. -/
theorem c1_deal_breaker_short_circuit (years : Int → Nat) (portal : Portal)
    (cfg : RulesConfig) (patient : PatientData)
    (h : 0 < (RULES_ENGINE.execute cfg.deal_breakers
        { patient with age := years patient.birthday } []).1.passed) :
    ∃ evs, process_patient years portal cfg patient = Except.ok evs ∧
      evs.all (fun e => !isRemoteCall e) = true ∧
      finalRecord evs =
        some { patient with age := years patient.birthday, pic := none } ∧
      finalComment evs = some (String.intercalate " / "
        (RULES_ENGINE.execute cfg.deal_breakers
          { patient with age := years patient.birthday } []).1.actions) := by
  refine ⟨[Ev.phaseRun "deal_breakers"
      (RULES_ENGINE.execute cfg.deal_breakers
        { patient with age := years patient.birthday } []).1.actions,
    Ev.addPatient { patient with age := years patient.birthday, pic := none }
      (String.intercalate " / "
        (RULES_ENGINE.execute cfg.deal_breakers
          { patient with age := years patient.birthday } []).1.actions)],
    ?_, ?_, ?_, ?_⟩
  · simp only [process_patient]
    rw [if_pos h]
  · simp [isRemoteCall]
  · exact finalRecord_snoc _ [] _ _
  · exact finalComment_snoc _ [] _ _

/-- Witness for C1: a ten-year-old patient and the deal-breaker rule
`age < 18 -> "minor"`. -/
theorem c1_witness :
    0 < (RULES_ENGINE.execute cfgMinor.deal_breakers
      { mkPatient "W1" ["A"] with
          age := yearsW (mkPatient "W1" ["A"]).birthday } []).1.passed ∧
    (∃ evs, process_patient yearsW portalQuiet cfgMinor
        (mkPatient "W1" ["A"]) = Except.ok evs ∧
      evs.all (fun e => !isRemoteCall e) = true ∧
      finalRecord evs = some { mkPatient "W1" ["A"] with
          age := yearsW (mkPatient "W1" ["A"]).birthday, pic := none } ∧
      finalComment evs = some (String.intercalate " / "
        (RULES_ENGINE.execute cfgMinor.deal_breakers
          { mkPatient "W1" ["A"] with
              age := yearsW (mkPatient "W1" ["A"]).birthday }
          []).1.actions)) :=
  ⟨by decide, c1_deal_breaker_short_circuit yearsW portalQuiet cfgMinor
    (mkPatient "W1" ["A"]) (by decide)⟩

/-- Claim C6: for every patient that reaches finalization, the comment
string of the final hand-off equals the chronological concatenation of
the action strings of every rule phase actually executed on that
patient's path, joined by the fixed `" / "` delimiter. -/
theorem c6_final_comment_is_joined_audit (years : Int → Nat)
    (portal : Portal) (cfg : RulesConfig) (patient : PatientData)
    (evs : List Ev)
    (h : process_patient years portal cfg patient = Except.ok evs) :
    finalComment evs =
      some (String.intercalate " / " (phaseActions evs)) := by
  simp only [process_patient] at h
  split at h
  · simp only [Except.ok.injEq] at h
    subst h
    rw [show
        Ev.phaseRun "deal_breakers"
            (RULES_ENGINE.execute cfg.deal_breakers
              { patient with age := years patient.birthday } []).1.actions ::
          [Ev.addPatient
            { patient with age := years patient.birthday, pic := none }
            (String.intercalate " / "
              (RULES_ENGINE.execute cfg.deal_breakers
                { patient with age := years patient.birthday }
                []).1.actions)] =
        Ev.phaseRun "deal_breakers"
            (RULES_ENGINE.execute cfg.deal_breakers
              { patient with age := years patient.birthday } []).1.actions ::
          ([] ++ [Ev.addPatient
            { patient with age := years patient.birthday, pic := none }
            (String.intercalate " / "
              (RULES_ENGINE.execute cfg.deal_breakers
                { patient with age := years patient.birthday }
                []).1.actions)]) from rfl,
      finalComment_snoc]
    simp [phaseActions]
  · split at h
    · cases h
    · rename_i pdF commentsF evsL hList
      have hc := processPnrList_comments portal cfg _ _ _ _ _ _ hList
      simp only [Except.ok.injEq] at h
      subst h
      rw [finalComment_snoc]
      rw [hc]
      simp [phaseActions, phaseActions_append, RULES_ENGINE.execute]

/-- Witness for C6: a patient with no references and empty rule phases;
the final comment is the join of the actions of the one executed phase. -/
theorem c6_witness :
    finalComment [Ev.phaseRun "deal_breakers" [],
        Ev.addPatient (mkPatient "W6" []) ""] =
      some (String.intercalate " / "
        (phaseActions [Ev.phaseRun "deal_breakers" [],
          Ev.addPatient (mkPatient "W6" []) ""])) :=
  c6_final_comment_is_joined_audit yearsW portalQuiet cfgEmpty
    (mkPatient "W6" []) _ rfl

/-- Claim C2 amended: `process_patients` has no per-patient failure
isolation.  When every patient of a prefix processes cleanly and the
next patient raises, the batch output holds exactly the prefix's
finalized records, the exception propagates as the batch result, and the
failing patient and all patients after it produce no output — no failure
entry is recorded for anyone. -/
theorem c2_first_failure_aborts_batch (u pw : Option String)
    (lEvs : List BatchEv) (years : Int → Nat) (portal : Portal)
    (cfg : RulesConfig) (ps1 : List PatientData) (p : PatientData)
    (ps2 : List PatientData) (e : Err)
    (hl : login u pw = Except.ok lEvs)
    (hok : (runPatients years portal cfg ps1).2 = none)
    (hfail : process_patient years portal cfg p = Except.error e) :
    process_patients u pw years portal cfg (ps1 ++ p :: ps2) =
      (lEvs ++ (runPatients years portal cfg ps1).1, some e) := by
  unfold process_patients
  rw [hl, runPatients_append_fail years portal cfg p ps2 e hfail ps1 hok]

/-- Witness for C2: the three-patient batch in which the second fails. -/
theorem c2_witness :
    process_patients (some "user") (some "pw") yearsW portalFailB cfgEmpty
      ([mkPatient "P1" ["A"]] ++
        mkPatient "P2" ["B"] :: [mkPatient "P3" ["C"]]) =
      ([BatchEv.loginPost, BatchEv.loginPost] ++
        (runPatients yearsW portalFailB cfgEmpty [mkPatient "P1" ["A"]]).1,
       some Err.remoteError) :=
  c2_first_failure_aborts_batch (some "user") (some "pw")
    [BatchEv.loginPost, BatchEv.loginPost] yearsW portalFailB cfgEmpty
    [mkPatient "P1" ["A"]] (mkPatient "P2" ["B"]) [mkPatient "P3" ["C"]]
    Err.remoteError rfl rfl rfl

/-- Claim C3 amended: the remote session is closed exactly once when
every patient of the batch processes without an exception, and is never
closed when any patient's processing raises (`webdriver.quit()` is
called after the loop, not in a `finally`). -/
theorem c3_quit_only_on_clean_batch (u pw : Option String)
    (lEvs : List BatchEv) (years : Int → Nat) (portal : Portal)
    (cfg : RulesConfig) (ps : List PatientData)
    (hl : login u pw = Except.ok lEvs) :
    countQuit (process_patients u pw years portal cfg ps).1 =
      if (runPatients years portal cfg ps).2 = none then 1 else 0 := by
  have hlev := login_ok_shape u pw lEvs hl
  subst hlev
  unfold process_patients
  rw [hl]
  cases h2 : (runPatients years portal cfg ps).2 with
  | none =>
    rw [if_pos rfl]
    simp only []
    rw [countQuit_append, countQuit_append, countQuit_runPatients]
    rfl
  | some e =>
    rw [if_neg (by simp)]
    simp only []
    rw [countQuit_append, countQuit_runPatients]
    rfl

/-- Witness for C3: an empty batch logs in cleanly and quits exactly
once. -/
theorem c3_witness :
    countQuit (process_patients (some "user") (some "pw") yearsW
        portalQuiet cfgEmpty []).1 =
      if (runPatients yearsW portalQuiet cfgEmpty
          ([] : List PatientData)).2 = none then 1 else 0 :=
  c3_quit_only_on_clean_batch (some "user") (some "pw")
    [BatchEv.loginPost, BatchEv.loginPost] yearsW portalQuiet cfgEmpty []
    rfl

/-- Claim C5 amended: category selection tries, in order, the requested
`prestazioni` code, then `"Visite specialistiche"`, then
`"Altre prestazioni"`, selecting the first candidate present in the
portal's offered list (a list offering only the last fallback succeeds
by selecting it), and raises `CategoryNotFoundError` when none of the
three is present — but that error aborts not only the current patient:
it propagates out of `process_patients` and kills the whole batch. -/
theorem c5_category_selection (cats : List String) (pnr esame prest : String) :
    (cats.contains prest = true →
      _check_request_accepted cats pnr esame prest = Except.ok prest) ∧
    (cats.contains prest = false →
      cats.contains "Visite specialistiche" = true →
      _check_request_accepted cats pnr esame prest =
        Except.ok "Visite specialistiche") ∧
    (cats.contains prest = false →
      cats.contains "Visite specialistiche" = false →
      cats.contains "Altre prestazioni" = true →
      _check_request_accepted cats pnr esame prest =
        Except.ok "Altre prestazioni") ∧
    (cats.contains prest = false →
      cats.contains "Visite specialistiche" = false →
      cats.contains "Altre prestazioni" = false →
      _check_request_accepted cats pnr esame prest =
        Except.error Err.categoryNotFound) ∧
    (∀ (u pw : Option String) (lEvs : List BatchEv) (years : Int → Nat)
        (portal : Portal) (cfg : RulesConfig) (p : PatientData)
        (rest : List PatientData),
      login u pw = Except.ok lEvs →
      process_patient years portal cfg p =
        Except.error Err.categoryNotFound →
      process_patients u pw years portal cfg (p :: rest) =
        (lEvs, some Err.categoryNotFound)) := by
  refine ⟨?_, ?_, ?_, ?_, ?_⟩
  · intro h1
    simp at h1
    simp [_check_request_accepted, codes_to_try, List.find?, h1]
  · intro h1 h2
    simp at h1 h2
    simp [_check_request_accepted, codes_to_try, List.find?, h1, h2]
  · intro h1 h2 h3
    simp at h1 h2 h3
    simp [_check_request_accepted, codes_to_try, List.find?, h1, h2, h3]
  · intro h1 h2 h3
    simp at h1 h2 h3
    simp [_check_request_accepted, codes_to_try, List.find?, h1, h2, h3]
  · intro u pw lEvs years portal cfg p rest hl hfail
    unfold process_patients
    rw [hl, runPatients_cons, hfail]
    simp

/-- Witness for C5: a portal list holding only the last fallback selects
it. -/
theorem c5_witness :
    _check_request_accepted ["Altre prestazioni"] "PNR1" "esame" "cat" =
      Except.ok "Altre prestazioni" :=
  (c5_category_selection ["Altre prestazioni"] "PNR1" "esame"
    "cat").2.2.1 rfl rfl rfl

/-- A row-parse over a mapping whose entries before the first `"array"`
entry all parse successfully raises the `NameError` of the unbound name
`ast`. -/
theorem parseRow_append_array (strptime : String → String → Option Int)
    (row : String → String) (it : ColItem) (hit : it.coltype = "array") :
    ∀ pre : List ColItem, ∀ post : List ColItem,
      (∀ x ∈ pre, exceptOk (parseItem strptime row x) = true) →
      parseRow strptime row (pre ++ it :: post) =
        Except.error ParseError.nameError := by
  intro pre
  induction pre with
  | nil =>
    intro post _
    rw [List.nil_append]
    unfold parseRow
    have hi : parseItem strptime row it =
        Except.error ParseError.nameError := by
      unfold parseItem
      rw [hit]
      rfl
    rw [hi]
  | cons x t ih =>
    intro post hpre
    rw [List.cons_append]
    unfold parseRow
    cases hx : parseItem strptime row x with
    | error e =>
      have hm := hpre x (List.mem_cons_self x t)
      rw [hx] at hm
      cases hm
    | ok kv =>
      rw [ih post (fun y hy => hpre y (List.mem_cons_of_mem x hy))]

/-- A row-parse over a mapping containing an `"array"` entry never
succeeds: either the array entry's `NameError` or an earlier entry's
exception is raised. -/
theorem parseRow_array_not_ok (strptime : String → String → Option Int)
    (it : ColItem) (hit : it.coltype = "array") :
    ∀ (pre post : List ColItem) (row : String → String)
      (d : List (String × Value)),
      parseRow strptime row (pre ++ it :: post) = Except.ok d → False := by
  intro pre
  induction pre with
  | nil =>
    intro post row d h
    rw [List.nil_append] at h
    unfold parseRow at h
    have hi : parseItem strptime row it =
        Except.error ParseError.nameError := by
      unfold parseItem
      rw [hit]
      rfl
    rw [hi] at h
    cases h
  | cons x t ih =>
    intro post row d h
    rw [List.cons_append] at h
    unfold parseRow at h
    cases hx : parseItem strptime row x with
    | error e =>
      rw [hx] at h
      cases h
    | ok kv =>
      rw [hx] at h
      cases hr : parseRow strptime row (t ++ it :: post) with
      | error e =>
        rw [hr] at h
        cases h
      | ok d2 => exact ih post row d2 hr

/-- Claim C10 amended: for a column mapping containing an `"array"`
entry and an input with at least one data row, parsing raises the
`NameError` of the never-imported `ast` module on the first row provided
every mapping entry before the array entry parses successfully on that
row (an earlier entry that itself fails raises its own error first);
either way, a mapping with a list-typed column never parses successfully
and no patient list is returned. -/
theorem c10_array_mapping_never_parses
    (strptime : String → String → Option Int) (pre post : List ColItem)
    (it : ColItem) (row : String → String) (rows : List (String → String))
    (hit : it.coltype = "array")
    (hpre : ∀ x ∈ pre, exceptOk (parseItem strptime row x) = true) :
    _parse_input_from_hospital strptime (pre ++ it :: post) (row :: rows) =
      Except.error ParseError.nameError ∧
    ∀ (pre' post' : List ColItem) (row' : String → String)
      (rows' : List (String → String)),
      exceptOk (_parse_input_from_hospital strptime (pre' ++ it :: post')
        (row' :: rows')) = false := by
  constructor
  · unfold _parse_input_from_hospital
    rw [parseRow_append_array strptime row it hit pre post hpre]
  · intro pre' post' row' rows'
    unfold _parse_input_from_hospital
    cases hr : parseRow strptime row' (pre' ++ it :: post') with
    | error e => rfl
    | ok d =>
      exact (parseRow_array_not_ok strptime it hit pre' post' row' d hr).elim

/-- Witness for C10: a mapping of a string column followed by an array
column fails with the `NameError` on a one-row file. -/
theorem c10_witness :
    _parse_input_from_hospital (fun _ _ => none)
        ([colString] ++ colArray :: []) ((fun _ => "x") :: []) =
      Except.error ParseError.nameError ∧
    ∀ (pre' post' : List ColItem) (row' : String → String)
      (rows' : List (String → String)),
      exceptOk (_parse_input_from_hospital (fun _ _ => none)
        (pre' ++ colArray :: post') (row' :: rows')) = false :=
  c10_array_mapping_never_parses (fun _ _ => none) [colString] []
    colArray (fun _ => "x") [] rfl (by decide)

/-- Claim C4: per reference, status `1` (awaiting manual approval)
invokes the accept-request procedure and then the identifier lookup, in
that order; status `2` (already approved) performs the identifier lookup
without invoking accept-request; every other status sets the
authorization identifier to null and attempts no identifier lookup. -/
theorem c4_pnr_status_branching (portal : Portal) (cfg : RulesConfig)
    (pd : PatientData) (pnr : String) (comments : List String)
    (html sel pic : String)
    (hfetch : portal.fetch_patient_data pnr = Except.ok html)
    (hacc : _check_request_accepted portal.categories pnr pd.esame
      pd.prestazioni = Except.ok sel)
    (hpic : _fetch_pic_from_database (portal.pic_database pnr) =
      Except.ok pic) :
    (portal.get_pnr_status html = 1 →
      pnrRemote (process_pnr portal cfg pd pnr comments) =
        some [Ev.fetchStatus pnr, Ev.acceptRequest pnr, Ev.fetchPic pnr,
          Ev.fetchPdf pic] ∧
      pnrPic (process_pnr portal cfg pd pnr comments) = some (some pic)) ∧
    (portal.get_pnr_status html = 2 →
      pnrRemote (process_pnr portal cfg pd pnr comments) =
        some [Ev.fetchStatus pnr, Ev.fetchPic pnr, Ev.fetchPdf pic] ∧
      pnrPic (process_pnr portal cfg pd pnr comments) = some (some pic)) ∧
    (portal.get_pnr_status html ≠ 1 → portal.get_pnr_status html ≠ 2 →
      pnrRemote (process_pnr portal cfg pd pnr comments) =
        some [Ev.fetchStatus pnr] ∧
      pnrPic (process_pnr portal cfg pd pnr comments) = some none) := by
  refine ⟨fun h1 => ?_, fun h2 => ?_, fun hn1 hn2 => ?_⟩
  · constructor
    · simp [process_pnr, hfetch, h1, hacc, hpic, pnrRemote, isRemoteCall]
    · simp [process_pnr, hfetch, h1, hacc, hpic, pnrPic]
  · constructor
    · simp [process_pnr, hfetch, h2, hpic, pnrRemote, isRemoteCall]
    · simp [process_pnr, hfetch, h2, hpic, pnrPic]
  · have b1 : (portal.get_pnr_status html == 1) = false := by simp [hn1]
    have b2 : (portal.get_pnr_status html == 2) = false := by simp [hn2]
    constructor
    · simp [process_pnr, hfetch, b1, b2, pnrRemote, isRemoteCall]
    · simp [process_pnr, hfetch, b1, b2, pnrPic]

/-- Witness for C4: on `portalAuth`, reference `"B"` resolves to the
awaiting-manual-approval status. -/
theorem c4_witness :
    (portalAuth.get_pnr_status "B" = 1 →
      pnrRemote (process_pnr portalAuth cfgEmpty (mkPatient "W4" ["B"])
          "B" []) =
        some [Ev.fetchStatus "B", Ev.acceptRequest "B", Ev.fetchPic "B",
          Ev.fetchPdf "PIC-B"] ∧
      pnrPic (process_pnr portalAuth cfgEmpty (mkPatient "W4" ["B"])
          "B" []) = some (some "PIC-B")) ∧
    (portalAuth.get_pnr_status "B" = 2 →
      pnrRemote (process_pnr portalAuth cfgEmpty (mkPatient "W4" ["B"])
          "B" []) =
        some [Ev.fetchStatus "B", Ev.fetchPic "B", Ev.fetchPdf "PIC-B"] ∧
      pnrPic (process_pnr portalAuth cfgEmpty (mkPatient "W4" ["B"])
          "B" []) = some (some "PIC-B")) ∧
    (portalAuth.get_pnr_status "B" ≠ 1 → portalAuth.get_pnr_status "B" ≠ 2 →
      pnrRemote (process_pnr portalAuth cfgEmpty (mkPatient "W4" ["B"])
          "B" []) = some [Ev.fetchStatus "B"] ∧
      pnrPic (process_pnr portalAuth cfgEmpty (mkPatient "W4" ["B"])
          "B" []) = some none) :=
  c4_pnr_status_branching portalAuth cfgEmpty (mkPatient "W4" ["B"]) "B"
    [] "B" "Altre prestazioni" "PIC-B" rfl rfl rfl

/-- Claim C7: for a patient with two references, the first resolving to
already-approved (status `2`) and the second to awaiting-manual-approval
(status `1`), the finalized record's single `pnr_status` and `pic` slots
hold only the second reference's outcome: each loop iteration overwrites
both fields and no per-reference history is retained. -/
theorem c7_second_reference_overwrites (years : Int → Nat)
    (portal : Portal) (cfg : RulesConfig) (patient : PatientData)
    (pnrA pnrB htmlA htmlB selB picA picB : String)
    (hpnr : patient.pnr = [pnrA, pnrB])
    (hdeal : (RULES_ENGINE.execute cfg.deal_breakers
      { patient with age := years patient.birthday } []).1.passed = 0)
    (hA : portal.fetch_patient_data pnrA = Except.ok htmlA)
    (hstA : portal.get_pnr_status htmlA = 2)
    (hpicA : _fetch_pic_from_database (portal.pic_database pnrA) =
      Except.ok picA)
    (hB : portal.fetch_patient_data pnrB = Except.ok htmlB)
    (hstB : portal.get_pnr_status htmlB = 1)
    (haccB : _check_request_accepted portal.categories pnrB patient.esame
      patient.prestazioni = Except.ok selB)
    (hpicB : _fetch_pic_from_database (portal.pic_database pnrB) =
      Except.ok picB) :
    ∃ evs, process_patient years portal cfg patient = Except.ok evs ∧
      (finalRecord evs).map (fun r => (r.pnr_status, r.pic)) =
        some (some 1, some picB) := by
  obtain ⟨cA, evA, eA⟩ := process_pnr_ok_status2 portal cfg
    { patient with age := years patient.birthday } pnrA
    (RULES_ENGINE.execute cfg.deal_breakers
      { patient with age := years patient.birthday } []).2
    htmlA picA hA hstA hpicA
  obtain ⟨cB, evB, eB⟩ := process_pnr_ok_status1 portal cfg
    { { patient with age := years patient.birthday } with
        pnr_status := some 2, pic := some picA } pnrB cA htmlB selB picB
    hB hstB haccB hpicB
  have eList : processPnrList portal cfg
      { patient with age := years patient.birthday } [pnrA, pnrB]
      (RULES_ENGINE.execute cfg.deal_breakers
        { patient with age := years patient.birthday } []).2 =
      Except.ok
        ({ { { patient with age := years patient.birthday } with
              pnr_status := some 2, pic := some picA } with
              pnr_status := some 1, pic := some picB },
          cB, evA ++ (evB ++ [])) := by
    simp only [processPnrList_cons, eA, eB, processPnrList_nil]
  rw [← hpnr] at eList
  refine ⟨Ev.phaseRun "deal_breakers"
      (RULES_ENGINE.execute cfg.deal_breakers
        { patient with age := years patient.birthday } []).1.actions ::
    ((evA ++ (evB ++ [])) ++
      [Ev.addPatient
        { { { patient with age := years patient.birthday } with
            pnr_status := some 2, pic := some picA } with
            pnr_status := some 1, pic := some picB }
        (String.intercalate " / " cB)]), ?_, ?_⟩
  · simp only [process_patient, hdeal]
    rw [if_neg (lt_irrefl 0)]
    rw [eList]
  · rw [finalRecord_snoc]
    rfl

/-- Witness for C7: on `portalAuth` the two references `"A"` (status 2,
identifier `"PIC-A"`) and `"B"` (status 1, identifier `"PIC-B"`) leave
only reference `"B"`'s outcome on the record. -/
theorem c7_witness :
    ∃ evs, process_patient yearsW portalAuth cfgEmpty
        (mkPatient "W7" ["A", "B"]) = Except.ok evs ∧
      (finalRecord evs).map (fun r => (r.pnr_status, r.pic)) =
        some (some 1, some "PIC-B") :=
  c7_second_reference_overwrites yearsW portalAuth cfgEmpty
    (mkPatient "W7" ["A", "B"]) "A" "B" "A" "B" "Altre prestazioni"
    "PIC-A" "PIC-B" rfl rfl rfl rfl rfl rfl rfl rfl rfl

end HealthForce
